import Mathlib

/-!
Verification of the PyratasDev license API (`pyratas_api.py`) against its
natural-language specification.

The development shallowly embeds the three core endpoints — `activate`,
`validate`, `renew` — together with the SQLite-backed state they operate on.

Modelling conventions, all derived from the source:
* The database is a record `DB`: the `license` table (an association list from
  `license_key_hash` to the stored row; `none` models the table being absent,
  since startup only creates `activation` and `usage`), the `activation` table
  (a list of rows, in rowid order), the `usage` log, and a flag `usageOk`
  telling whether an `INSERT INTO usage` currently succeeds (the store-failure
  mode the spec's Usage-Recorder contract is about; the source has no
  `try/except` around those inserts, so a failure propagates).
* Timestamps are seconds (`Nat`).  The source renders them with
  `strftime("%Y-%m-%d %H:%M:%S")` and parses them back with the same format
  before comparing, and that rendering is strictly monotone at second
  precision, so `datetime` comparison coincides with `Nat` comparison.
* `uuid.uuid4()` is an oracle: the fresh token is an explicit argument.
* `hashlib.sha256(s.encode("utf-8")).hexdigest()` is implemented bit-for-bit
  (FIPS 180-4 over the UTF-8 bytes, hex-rendered), so hash equalities and
  inequalities on concrete keys are decidable facts.
* Python's `str.strip()` is `pyStrip` (ASCII whitespace; the exotic Unicode
  space classes Python also strips do not occur in any input considered here).
* `HTTPException(status_code, detail)` raised by a handler leaves the already
  committed writes in place and aborts the rest of the handler; an uncaught
  non-HTTP exception (e.g. a failed usage insert) surfaces as a 500
  "Internal Server Error" response.  Handlers therefore return an
  `Except HTTPException result` together with the post-state.
-/

namespace PyratasApi

/-! ## SHA-256 (the `hashlib.sha256(...).hexdigest()` call of the source) -/

namespace SHA256

def w32 (x : Nat) : Nat := x % 4294967296

def rotr (n x : Nat) : Nat := w32 ((x >>> n) ||| (x <<< (32 - n)))

def bigSigma0 (x : Nat) : Nat := (rotr 2 x) ^^^ (rotr 13 x) ^^^ (rotr 22 x)

def bigSigma1 (x : Nat) : Nat := (rotr 6 x) ^^^ (rotr 11 x) ^^^ (rotr 25 x)

def smallSigma0 (x : Nat) : Nat := (rotr 7 x) ^^^ (rotr 18 x) ^^^ (x >>> 3)

def smallSigma1 (x : Nat) : Nat := (rotr 17 x) ^^^ (rotr 19 x) ^^^ (x >>> 10)

def K : List Nat :=
  [1116352408, 1899447441, 3049323471, 3921009573, 961987163, 1508970993,
   2453635748, 2870763221, 3624381080, 310598401, 607225278, 1426881987,
   1925078388, 2162078206, 2614888103, 3248222580, 3835390401, 4022224774,
   264347078, 604807628, 770255983, 1249150122, 1555081692, 1996064986,
   2554220882, 2821834349, 2952996808, 3210313671, 3336571891, 3584528711,
   113926993, 338241895, 666307205, 773529912, 1294757372, 1396182291,
   1695183700, 1986661051, 2177026350, 2456956037, 2730485921, 2820302411,
   3259730800, 3345764771, 3516065817, 3600352804, 4094571909, 275423344,
   430227734, 506948616, 659060556, 883997877, 958139571, 1322822218,
   1537002063, 1747873779, 1955562222, 2024104815, 2227730452, 2361852424,
   2428436474, 2756734187, 3204031479, 3329325298]

def H0 : List Nat :=
  [1779033703, 3144134277, 1013904242, 2773480762, 1359893119, 2600822924,
   528734635, 1541459225]

def beBytes : Nat → Nat → List Nat
  | 0, _ => []
  | n + 1, v => beBytes n (v >>> 8) ++ [v &&& 0xff]

def pad (msg : List Nat) : List Nat :=
  let L := msg.length
  let k := (64 - ((L + 9) % 64)) % 64
  msg ++ [0x80] ++ List.replicate k 0 ++ beBytes 8 (8 * L)

def toWords : List Nat → List Nat
  | a :: b :: c :: d :: rest => ((a <<< 24) + (b <<< 16) + (c <<< 8) + d) :: toWords rest
  | _ => []

def chunks16 : List Nat → List (List Nat)
  | w0 :: w1 :: w2 :: w3 :: w4 :: w5 :: w6 :: w7 ::
    w8 :: w9 :: w10 :: w11 :: w12 :: w13 :: w14 :: w15 :: rest =>
      [w0, w1, w2, w3, w4, w5, w6, w7, w8, w9, w10, w11, w12, w13, w14, w15] :: chunks16 rest
  | _ => []

def extendW (ws : List Nat) : Nat → List Nat
  | 0 => ws
  | k + 1 =>
    let n := ws.length
    let next := w32 (smallSigma1 (ws.getD (n - 2) 0) + ws.getD (n - 7) 0 +
      smallSigma0 (ws.getD (n - 15) 0) + ws.getD (n - 16) 0)
    extendW (ws ++ [next]) k

def round (st : List Nat) (ki : Nat) (wi : Nat) : List Nat :=
  match st with
  | [a, b, c, d, e, f, g, h] =>
    let ch := (e &&& f) ^^^ ((e ^^^ 0xffffffff) &&& g)
    let t1 := w32 (h + bigSigma1 e + ch + ki + wi)
    let maj := (a &&& b) ^^^ (a &&& c) ^^^ (b &&& c)
    let t2 := w32 (bigSigma0 a + maj)
    [w32 (t1 + t2), a, b, c, w32 (d + t1), e, f, g]
  | other => other

def processChunk (hs : List Nat) (chunk : List Nat) : List Nat :=
  let ws := extendW chunk 48
  let fin := (K.zip ws).foldl (fun s p => round s p.1 p.2) hs
  List.zipWith (fun x y => w32 (x + y)) hs fin

def digestWords (msg : List Nat) : List Nat :=
  (chunks16 (toWords (pad msg))).foldl processChunk H0

def hexChar (n : Nat) : Char :=
  if n < 10 then Char.ofNat (48 + n) else Char.ofNat (87 + n)

def hexWord (w : Nat) : List Char :=
  (List.range 8).map (fun i => hexChar ((w >>> (28 - 4 * i)) &&& 0xf))

def hexOfWords (ws : List Nat) : String := String.mk ((ws.map hexWord).flatten)

def utf8Bytes (c : Nat) : List Nat :=
  if c < 0x80 then [c]
  else if c < 0x800 then [0xc0 ||| (c >>> 6), 0x80 ||| (c &&& 0x3f)]
  else if c < 0x10000 then
    [0xe0 ||| (c >>> 12), 0x80 ||| ((c >>> 6) &&& 0x3f), 0x80 ||| (c &&& 0x3f)]
  else
    [0xf0 ||| (c >>> 18), 0x80 ||| ((c >>> 12) &&& 0x3f), 0x80 ||| ((c >>> 6) &&& 0x3f),
     0x80 ||| (c &&& 0x3f)]

end SHA256

/-- Source `sha256` (line 41): `hashlib.sha256(s.encode("utf-8")).hexdigest()`. -/
def sha256 (s : String) : String :=
  SHA256.hexOfWords (SHA256.digestWords ((s.data.map (fun c => SHA256.utf8Bytes c.toNat)).flatten))

/-! ## Python string plumbing used by the handlers -/

/-- The ASCII whitespace characters Python's `str.strip()` removes. -/
def pyIsSpace (c : Char) : Bool :=
  c == ' ' || c == '\t' || c == '\n' || c == '\r' || c == '\x0b' || c == '\x0c'

/-- Python `s.strip()`: drop leading and trailing whitespace. -/
def pyStrip (s : String) : String :=
  String.mk (((s.data.dropWhile pyIsSpace).reverse.dropWhile pyIsSpace).reverse)

/-- The key-hash computation of `activate` (lines 113 and 120): hash of the
stripped raw key.  This is the only normalization the source applies. -/
def keyHashOf (license_key : String) : String := sha256 (pyStrip license_key)

/-- Modelled from the spec's words (§4.1 preconditions), for comparison with
`keyHashOf`: "trim whitespace; license key additionally upper-cased and
restricted to an allowed character set — letters, digits, hyphen — stripping
anything else".  Not part of the source. -/
def specNormalize (s : String) : String :=
  String.mk (((pyStrip s).data.map Char.toUpper).filter (fun c => c.isAlphanum || c == '-'))

/-! ## Data model (tables of `licenses.db`) -/

/-- A row of the externally provisioned `license` table, as read by `activate`
(line 125): `SELECT status, max_devices`.  Both columns are nullable. -/
structure License where
  status : Option String
  max_devices : Option Nat
deriving DecidableEq, Repr

/-- A row of the `activation` table (lines 53-67).  `UNIQUE(license_key_hash,
device_id)` with `INSERT OR REPLACE` makes `(license_key_hash, device_id)` the
logical key. -/
structure Activation where
  license_key_hash : String
  device_id : String
  token : String
  fingerprint : String
  activated_at : Nat
  expires_at : Nat
deriving DecidableEq, Repr

/-- A row of the append-only `usage` table (lines 69-84). -/
structure UsageEvent where
  ts : Nat
  license_key_hash : String
  device_id : String
  event : String
  meta : String
deriving DecidableEq, Repr

/-- The persistent store.  `license = none` models the `license` table being
absent (it is provisioned externally; startup creates only `activation` and
`usage`).  `usageOk` tells whether an `INSERT INTO usage` succeeds; the source
wraps none of those inserts in `try/except`. -/
structure DB where
  license : Option (List (String × License))
  activation : List Activation
  usage : List UsageEvent
  usageOk : Bool
deriving DecidableEq, Repr

/-- `fastapi.HTTPException(status_code, detail)`; an uncaught non-HTTP
exception surfaces as status 500. -/
structure HTTPException where
  status_code : Nat
  detail : String
deriving DecidableEq, Repr

/-- 30 days in seconds: `timedelta(days=30)` at the second precision of the
stored timestamps. -/
def thirtyDays : Nat := 30 * 86400

/-- Effective device ceiling (line 131): `row["max_devices"] or 1`, i.e. 1
when the stored value is NULL or 0. -/
def effectiveMax (stored : Option Nat) : Nat :=
  match stored with
  | none => 1
  | some n => if n = 0 then 1 else n

/-- Admission count (line 133): `SELECT COUNT(*) FROM activation WHERE
license_key_hash=?` — all rows, with no expiry filter. -/
def countRows (rows : List Activation) (h : String) : Nat :=
  (rows.filter (fun r => r.license_key_hash == h)).length

/-- Pair-existence probe (line 137): `SELECT 1 FROM activation WHERE
license_key_hash=? AND device_id=?`. -/
def pairPresent (rows : List Activation) (h dev : String) : Bool :=
  rows.any (fun r => r.license_key_hash == h && r.device_id == dev)

/-- The admission-control decision of lines 136-139: reject exactly when the
row count has reached the ceiling and the requesting device holds no row. -/
def slotRejected (rows : List Activation) (maxd : Nat) (h dev : String) : Bool :=
  decide (countRows rows h ≥ maxd) && !pairPresent rows h dev

/-- `INSERT OR REPLACE` under `UNIQUE(license_key_hash, device_id)` (lines
144-148): the conflicting row (if any) is deleted and the fresh row is
inserted with a new rowid, hence at the end. -/
def upsert (rows : List Activation) (a : Activation) : List Activation :=
  rows.filter
      (fun r => !(r.license_key_hash == a.license_key_hash && r.device_id == a.device_id))
    ++ [a]

/-- Row lookup of `validate`/`renew` (lines 167, 192): `SELECT ... FROM
activation WHERE token=? AND device_id=?`, first match in rowid order. -/
def findActivation (rows : List Activation) (tok dev : String) : Option Activation :=
  rows.find? (fun r => r.token == tok && r.device_id == dev)

/-- Number of distinct `device_id` values among a license's activation rows. -/
def deviceSet (rows : List Activation) (h : String) : Finset String :=
  ((rows.filter (fun r => r.license_key_hash == h)).map (fun r => r.device_id)).toFinset

/-- `count(distinct device_id in activation where license_key_hash = h)`. -/
def distinctDevices (rows : List Activation) (h : String) : Nat :=
  (deviceSet rows h).card

/-! ## The handlers -/

/-- Result of a successful `POST /activate` (line 156). -/
structure ActivateOut where
  token : String
  expires_at : Nat
  max_devices : Nat
deriving DecidableEq, Repr

/-- Result of a (non-erroring) `POST /validate` (lines 170, 180, 181). -/
structure ValidateOut where
  valid : Bool
  reason : String
deriving DecidableEq, Repr

/-- Result of a successful `POST /renew` (line 205). -/
structure RenewOut where
  new_expires_at : Nat
deriving DecidableEq, Repr

/-- `json.dumps({"new_expires_at": new_exp})` of line 202, with the timestamp
rendered from its `Nat` model. -/
def renewMeta (e : Nat) : String :=
  "\x7b\x22new_expires_at\x22: \x22" ++ toString e ++ "\x22\x7d"

/-- `POST /activate` (lines 111-156).  `now` is the clock, `freshToken` the
`uuid.uuid4()` oracle, `fingerprint` the already-serialized
`json.dumps(data.get("fingerprint", {}))` blob. -/
def activate (st : DB) (now : Nat) (freshToken : String)
    (license_key device_id fingerprint : String) :
    Except HTTPException ActivateOut × DB :=
  let lk := pyStrip license_key
  let dev := pyStrip device_id
  if lk = "" ∨ dev = "" then
    (Except.error ⟨400, "Campos obrigatórios ausentes."⟩, st)
  else
    let lic_hash := keyHashOf license_key
    match st.license with
    | none => (Except.error ⟨500, "Banco de licenças não inicializado."⟩, st)
    | some tbl =>
      match tbl.lookup lic_hash with
      | none => (Except.error ⟨404, "Licença inválida."⟩, st)
      | some row =>
        if (row.status.getD "") ≠ "active" then
          (Except.error ⟨403, "Licença inativa."⟩, st)
        else
          let max_devices := effectiveMax row.max_devices
          if slotRejected st.activation max_devices lic_hash dev then
            (Except.error ⟨403, "Licença já está em uso em outro computador."⟩, st)
          else
            let expires_at := now + thirtyDays
            let rows1 := upsert st.activation ⟨lic_hash, dev, freshToken, fingerprint, now, expires_at⟩
            let st1 := { st with activation := rows1 }
            if st1.usageOk then
              (Except.ok ⟨freshToken, expires_at, max_devices⟩,
               { st1 with usage := st1.usage ++ [⟨now, lic_hash, dev, "activate", "\x7b\x7d"⟩] })
            else
              (Except.error ⟨500, "Internal Server Error"⟩, st1)

/-- `POST /validate` (lines 158-181). -/
def validate (st : DB) (now : Nat) (token device_id : String) :
    Except HTTPException ValidateOut × DB :=
  let tok := pyStrip token
  let dev := pyStrip device_id
  if tok = "" ∨ dev = "" then
    (Except.error ⟨400, "Token e device_id são obrigatórios."⟩, st)
  else
    match findActivation st.activation tok dev with
    | none => (Except.ok ⟨false, "Token não encontrado."⟩, st)
    | some row =>
      let valid := decide (now ≤ row.expires_at)
      if st.usageOk then
        let ev : UsageEvent :=
          ⟨now, row.license_key_hash, dev,
            if valid then "validate_ok" else "validate_expired", "\x7b\x7d"⟩
        let st1 := { st with usage := st.usage ++ [ev] }
        if valid then (Except.ok ⟨true, "Token válido."⟩, st1)
        else (Except.ok ⟨false, "Token expirado."⟩, st1)
      else
        (Except.error ⟨500, "Internal Server Error"⟩, st)

/-- `POST /renew` (lines 183-205).  Note the source's UPDATE (line 198)
filters by `token` alone, not by the `(token, device_id)` pair it looked up. -/
def renew (st : DB) (now : Nat) (token device_id : String) :
    Except HTTPException RenewOut × DB :=
  let tok := pyStrip token
  let dev := pyStrip device_id
  if tok = "" ∨ dev = "" then
    (Except.error ⟨400, "Campos obrigatórios ausentes."⟩, st)
  else
    match findActivation st.activation tok dev with
    | none => (Except.error ⟨404, "Ativação não encontrada."⟩, st)
    | some row =>
      let new_exp := now + thirtyDays
      let rows1 :=
        st.activation.map (fun r => if r.token == tok then { r with expires_at := new_exp } else r)
      let st1 := { st with activation := rows1 }
      if st1.usageOk then
        (Except.ok ⟨new_exp⟩,
         { st1 with usage := st1.usage ++ [⟨now, row.license_key_hash, dev, "renew", renewMeta new_exp⟩] })
      else
        (Except.error ⟨500, "Internal Server Error"⟩, st1)

/-! ## The check-then-act decomposition of concurrent activations

`activate` issues its admission probe (lines 133-139) and its ledger write
(lines 144-149) as separate statements on a connection shared by all request
threads (`check_same_thread=False`; only connection *creation* is guarded by
`_conn_lock`), so two in-flight activations can both run the probe before
either writes. -/

/-- Two concurrent `activate` calls on the same license, devices `d1`,`d2`,
interleaved probe-probe-write-write: both admission decisions read the same
initial table. -/
def twoActivatesInterleaved (rows : List Activation) (maxd : Nat)
    (h d1 t1 d2 t2 : String) (now : Nat) : List Activation :=
  let ok1 := !slotRejected rows maxd h d1
  let ok2 := !slotRejected rows maxd h d2
  let rows1 := if ok1 then upsert rows ⟨h, d1, t1, "\x7b\x7d", now, now + thirtyDays⟩ else rows
  if ok2 then upsert rows1 ⟨h, d2, t2, "\x7b\x7d", now, now + thirtyDays⟩ else rows1

end PyratasApi

deriving instance DecidableEq for Except

namespace PyratasApi

/-! ## Concrete states for witnesses (the spec §8 scenario: license
`ABC-123`, `max_devices = 1`, status `active`) -/

/-- Key hash of the scenario license `ABC-123`. -/
def demoKeyHash : String := keyHashOf "ABC-123"

/-- The scenario license row: `status = "active"`, `max_devices = 1`. -/
def demoLicense : License := ⟨some "active", some 1⟩

/-- A one-license `license` table. -/
def demoTbl : List (String × License) := [(demoKeyHash, demoLicense)]

/-- The scenario ledger row for device `D1`, token `T1`, activated at 100. -/
def demoRowD1 : Activation := ⟨demoKeyHash, "D1", "T1", "\x7b\x7d", 100, 100 + thirtyDays⟩

/-- A `D1` row whose expiry (200) is already in the past at the times the
witnesses use. -/
def demoRowD1Expired : Activation := ⟨demoKeyHash, "D1", "T1", "\x7b\x7d", 100, 200⟩

/-- Seeded store, no activations yet. -/
def dbEmpty : DB := ⟨some demoTbl, [], [], true⟩

/-- Seeded store with `D1` active. -/
def dbD1 : DB := ⟨some demoTbl, [demoRowD1], [], true⟩

/-- Seeded store with `D1` present but expired. -/
def dbD1Expired : DB := ⟨some demoTbl, [demoRowD1Expired], [], true⟩

/-- Store whose `license` table is absent. -/
def dbNoTable : DB := ⟨none, [], [], true⟩

/-- Store whose only license is suspended. -/
def dbSuspended : DB := ⟨some [(demoKeyHash, ⟨some "suspended", some 1⟩)], [], [], true⟩

/-- Seeded store on which every `INSERT INTO usage` fails. -/
def dbUsageBroken : DB := ⟨some demoTbl, [], [], false⟩

/-- Same with `D1` active. -/
def dbD1UsageBroken : DB := ⟨some demoTbl, [demoRowD1], [], false⟩

end PyratasApi

namespace PyratasApi

/-! ## General lemmas about the ledger primitives -/

/-- Sanity anchor: the SHA-256 model reproduces the FIPS 180-4 test vector. -/
theorem sha256_spec_vector :
    sha256 "abc" = "ba7816bf8f01cfea414140de5dae2223b00361a396177a9cb410ff61f20015ad" := by
  decide

theorem mem_upsert {rows : List Activation} {a r : Activation} :
    r ∈ upsert rows a ↔
      (r ∈ rows ∧ ¬(r.license_key_hash = a.license_key_hash ∧ r.device_id = a.device_id)) ∨
        r = a := by
  simp [upsert, List.mem_filter, List.mem_append]
  tauto

theorem mem_deviceSet {rows : List Activation} {h d : String} :
    d ∈ deviceSet rows h ↔ ∃ r ∈ rows, r.license_key_hash = h ∧ r.device_id = d := by
  simp [deviceSet, List.mem_filter]
  tauto

theorem pairPresent_iff {rows : List Activation} {h dev : String} :
    pairPresent rows h dev = true ↔ ∃ r ∈ rows, r.license_key_hash = h ∧ r.device_id = dev := by
  simp [pairPresent]

theorem slotRejected_eq_false_iff (rows : List Activation) (maxd : Nat) (h dev : String) :
    slotRejected rows maxd h dev = false ↔
      countRows rows h < maxd ∨ pairPresent rows h dev = true := by
  cases hp : pairPresent rows h dev <;> simp [slotRejected, hp, Nat.not_le]

theorem slotRejected_eq_true_iff (rows : List Activation) (maxd : Nat) (h dev : String) :
    slotRejected rows maxd h dev = true ↔
      countRows rows h ≥ maxd ∧ pairPresent rows h dev = false := by
  cases hp : pairPresent rows h dev <;> simp [slotRejected, hp]

theorem distinctDevices_le_countRows (rows : List Activation) (h : String) :
    distinctDevices rows h ≤ countRows rows h := by
  calc (deviceSet rows h).card
      ≤ ((rows.filter (fun r => r.license_key_hash == h)).map (fun r => r.device_id)).length :=
        List.toFinset_card_le _
    _ = countRows rows h := by simp [countRows]

theorem deviceSet_upsert_subset (rows : List Activation) (a : Activation) :
    deviceSet (upsert rows a) a.license_key_hash ⊆
      insert a.device_id (deviceSet rows a.license_key_hash) := by
  intro d hd
  rcases mem_deviceSet.mp hd with ⟨r, hr, hh, hdv⟩
  rcases mem_upsert.mp hr with ⟨hrows, _⟩ | rfl
  · exact Finset.mem_insert_of_mem (mem_deviceSet.mpr ⟨r, hrows, hh, hdv⟩)
  · subst hdv
    exact Finset.mem_insert_self _ _

theorem deviceSet_upsert_other {rows : List Activation} {a : Activation} {X : String}
    (hne : a.license_key_hash ≠ X) :
    deviceSet (upsert rows a) X = deviceSet rows X := by
  ext d
  rw [mem_deviceSet, mem_deviceSet]
  constructor
  · rintro ⟨r, hr, hh, hdv⟩
    rcases mem_upsert.mp hr with ⟨hrows, _⟩ | rfl
    · exact ⟨r, hrows, hh, hdv⟩
    · exact absurd hh hne
  · rintro ⟨r, hr, hh, hdv⟩
    by_cases hc : r.license_key_hash = a.license_key_hash ∧ r.device_id = a.device_id
    · exact absurd (hc.1.symm.trans hh) hne
    · exact ⟨r, mem_upsert.mpr (Or.inl ⟨hr, hc⟩), hh, hdv⟩

theorem distinctDevices_upsert_le (rows : List Activation) (a : Activation) :
    distinctDevices (upsert rows a) a.license_key_hash ≤
      distinctDevices rows a.license_key_hash + 1 := by
  calc (deviceSet (upsert rows a) a.license_key_hash).card
      ≤ (insert a.device_id (deviceSet rows a.license_key_hash)).card :=
        Finset.card_le_card (deviceSet_upsert_subset rows a)
    _ ≤ distinctDevices rows a.license_key_hash + 1 := Finset.card_insert_le _ _

theorem distinctDevices_upsert_present {rows : List Activation} {a : Activation}
    (hp : pairPresent rows a.license_key_hash a.device_id = true) :
    distinctDevices (upsert rows a) a.license_key_hash ≤
      distinctDevices rows a.license_key_hash := by
  rcases pairPresent_iff.mp hp with ⟨r, hr, hh, hdv⟩
  have hmem : a.device_id ∈ deviceSet rows a.license_key_hash :=
    mem_deviceSet.mpr ⟨r, hr, hh, hdv⟩
  have hsub : deviceSet (upsert rows a) a.license_key_hash ⊆ deviceSet rows a.license_key_hash := by
    have := deviceSet_upsert_subset rows a
    rwa [Finset.insert_eq_self.mpr hmem] at this
  exact Finset.card_le_card hsub

/-- Frame of a successful activation: the post-state ledger is either untouched
(an error before the write) or exactly the upsert of the admitted row. -/
theorem activate_post_activation (st : DB) (now : Nat) (ft license_key device_id fp : String) :
    (activate st now ft license_key device_id fp).2.activation = st.activation ∨
    ∃ tbl lic, st.license = some tbl ∧
      tbl.lookup (keyHashOf license_key) = some lic ∧
      slotRejected st.activation (effectiveMax lic.max_devices) (keyHashOf license_key)
        (pyStrip device_id) = false ∧
      (activate st now ft license_key device_id fp).2.activation =
        upsert st.activation
          ⟨keyHashOf license_key, pyStrip device_id, ft, fp, now, now + thirtyDays⟩ := by
  simp only [activate]
  split
  · exact Or.inl rfl
  · split
    · exact Or.inl rfl
    · next tbl hL =>
      split
      · exact Or.inl rfl
      · next lic hF =>
        split
        · exact Or.inl rfl
        · split
          · exact Or.inl rfl
          · next hrej =>
            refine Or.inr ⟨tbl, lic, hL, hF, by simpa using hrej, ?_⟩
            split <;> rfl


/-! ## Claim theorems -/

/-- Claim C1: for every Activate call on an active license (non-empty stripped
inputs, seeded table, key found, status "active"), with the effective ceiling
`max_devices or 1`: if the activation-row count has reached the ceiling and no
row exists for the `(key_hash, device)` pair, the call fails with 403 "device
slot exhausted" and the store is unchanged; otherwise — in particular whenever
the device already holds a row — it succeeds, upserts the pair's row with the
fresh token and expiry `now + 30 days`, and returns
`{token, expires_at, max_devices}`. -/
theorem activate_admission_control (st : DB) (now : Nat)
    (freshToken license_key device_id fp : String)
    (tbl : List (String × License)) (lic : License)
    (hlk : pyStrip license_key ≠ "") (hdev : pyStrip device_id ≠ "")
    (hL : st.license = some tbl)
    (hfind : tbl.lookup (keyHashOf license_key) = some lic)
    (hactive : lic.status.getD "" = "active")
    (hOk : st.usageOk = true) :
    (countRows st.activation (keyHashOf license_key) ≥ effectiveMax lic.max_devices ∧
        pairPresent st.activation (keyHashOf license_key) (pyStrip device_id) = false →
      activate st now freshToken license_key device_id fp =
        (Except.error ⟨403, "Licença já está em uso em outro computador."⟩, st)) ∧
    (countRows st.activation (keyHashOf license_key) < effectiveMax lic.max_devices ∨
        pairPresent st.activation (keyHashOf license_key) (pyStrip device_id) = true →
      activate st now freshToken license_key device_id fp =
        (Except.ok ⟨freshToken, now + thirtyDays, effectiveMax lic.max_devices⟩,
         { st with
            activation := upsert st.activation ⟨keyHashOf license_key, pyStrip device_id, freshToken, fp, now, now + thirtyDays⟩
            usage := st.usage ++ [⟨now, keyHashOf license_key, pyStrip device_id, "activate", "\x7b\x7d"⟩] })) := by
  constructor
  · rintro ⟨hge, habs⟩
    have hrej : slotRejected st.activation (effectiveMax lic.max_devices)
        (keyHashOf license_key) (pyStrip device_id) = true :=
      (slotRejected_eq_true_iff _ _ _ _).mpr ⟨hge, habs⟩
    simp [activate, hlk, hdev, hL, hfind, hactive, hrej]
  · intro hadm
    have hrej : slotRejected st.activation (effectiveMax lic.max_devices)
        (keyHashOf license_key) (pyStrip device_id) = false :=
      (slotRejected_eq_false_iff _ _ _ _).mpr hadm
    simp [activate, hlk, hdev, hL, hfind, hactive, hrej, hOk]

/-- Claim C8: Activate's failure taxonomy, in checking order and all before any
ledger write: 400 for a missing/empty field (regardless of anything else); then
500 when the `license` table is absent; then 404 when the key hash is not in
the table; then 403 when the stored status is anything but "active". -/
theorem activate_error_taxonomy (st : DB) (now : Nat)
    (freshToken license_key device_id fp : String) :
    ((pyStrip license_key = "" ∨ pyStrip device_id = "") →
      activate st now freshToken license_key device_id fp =
        (Except.error ⟨400, "Campos obrigatórios ausentes."⟩, st)) ∧
    (pyStrip license_key ≠ "" → pyStrip device_id ≠ "" → st.license = none →
      activate st now freshToken license_key device_id fp =
        (Except.error ⟨500, "Banco de licenças não inicializado."⟩, st)) ∧
    (∀ tbl, pyStrip license_key ≠ "" → pyStrip device_id ≠ "" → st.license = some tbl →
      tbl.lookup (keyHashOf license_key) = none →
      activate st now freshToken license_key device_id fp =
        (Except.error ⟨404, "Licença inválida."⟩, st)) ∧
    (∀ tbl lic, pyStrip license_key ≠ "" → pyStrip device_id ≠ "" → st.license = some tbl →
      tbl.lookup (keyHashOf license_key) = some lic → lic.status.getD "" ≠ "active" →
      activate st now freshToken license_key device_id fp =
        (Except.error ⟨403, "Licença inativa."⟩, st)) := by
  refine ⟨?_, ?_, ?_, ?_⟩
  · intro h
    simp [activate, h]
  · intro hlk hdev hL
    simp [activate, hlk, hdev, hL]
  · intro tbl hlk hdev hL hF
    simp [activate, hlk, hdev, hL, hF]
  · intro tbl lic hlk hdev hL hF hs
    simp [activate, hlk, hdev, hL, hF, hs]

/-- Claim C9: the admission count ignores expiry — on an active license whose
row count already equals the effective ceiling, activating a device that holds
no row fails with 403 and leaves the store unchanged even when every existing
activation row of that license is already expired. -/
theorem activate_counts_expired_rows (st : DB) (now : Nat)
    (freshToken license_key device_id fp : String)
    (tbl : List (String × License)) (lic : License)
    (hlk : pyStrip license_key ≠ "") (hdev : pyStrip device_id ≠ "")
    (hL : st.license = some tbl)
    (hfind : tbl.lookup (keyHashOf license_key) = some lic)
    (hactive : lic.status.getD "" = "active")
    (hcount : countRows st.activation (keyHashOf license_key) = effectiveMax lic.max_devices)
    (habs : pairPresent st.activation (keyHashOf license_key) (pyStrip device_id) = false)
    (hexpired : ∀ r ∈ st.activation, r.license_key_hash = keyHashOf license_key →
      r.expires_at < now) :
    activate st now freshToken license_key device_id fp =
      (Except.error ⟨403, "Licença já está em uso em outro computador."⟩, st) := by
  have hrej : slotRejected st.activation (effectiveMax lic.max_devices)
      (keyHashOf license_key) (pyStrip device_id) = true :=
    (slotRejected_eq_true_iff _ _ _ _).mpr ⟨le_of_eq hcount.symm, habs⟩
  simp [activate, hlk, hdev, hL, hfind, hactive, hrej]

/-- Claim C10: Validate never mutates the activation table — in every case
(malformed request, token not found, valid, expired, and even a failing usage
insert) the activation rows after the call are exactly those before it. -/
theorem validate_preserves_activation_rows (st : DB) (now : Nat) (token device_id : String) :
    (validate st now token device_id).2.activation = st.activation := by
  simp only [validate]
  split
  · rfl
  · split
    · rfl
    · split
      · split <;> rfl
      · rfl

/-- Claim C2: the per-license invariant "distinct devices at most the
effective `max_devices`" is preserved by every committed Activate call from
any state satisfying it, and re-activating an already-present
`(key_hash, device)` pair never increases the license's distinct-device count,
because the upsert replaces the pair's row instead of adding one. -/
theorem activate_preserves_device_ceiling (st : DB) (now : Nat)
    (freshToken license_key device_id fp X : String)
    (tbl : List (String × License)) (lic : License)
    (hL : st.license = some tbl) (hfind : tbl.lookup X = some lic)
    (hinv : distinctDevices st.activation X ≤ effectiveMax lic.max_devices) :
    distinctDevices (activate st now freshToken license_key device_id fp).2.activation X ≤
      effectiveMax lic.max_devices ∧
    (pairPresent st.activation (keyHashOf license_key) (pyStrip device_id) = true →
      distinctDevices (activate st now freshToken license_key device_id fp).2.activation
          (keyHashOf license_key) ≤
        distinctDevices st.activation (keyHashOf license_key)) := by
  rcases activate_post_activation st now freshToken license_key device_id fp with
    heq | ⟨tbl2, lic2, hL2, hF2, hrej, heq⟩
  · rw [heq]
    exact ⟨hinv, fun _ => le_refl _⟩
  · constructor
    · rw [heq]
      by_cases hX : keyHashOf license_key = X
      · subst hX
        rw [hL] at hL2
        injection hL2 with h1
        subst h1
        rw [hfind] at hF2
        injection hF2 with h2
        subst h2
        rcases (slotRejected_eq_false_iff _ _ _ _).mp hrej with hlt | hp
        · refine le_trans (distinctDevices_upsert_le st.activation
            ⟨keyHashOf license_key, pyStrip device_id, freshToken, fp, now, now + thirtyDays⟩) ?_
          have hdc := distinctDevices_le_countRows st.activation (keyHashOf license_key)
          show distinctDevices st.activation (keyHashOf license_key) + 1 ≤
            effectiveMax lic.max_devices
          omega
        · exact le_trans (distinctDevices_upsert_present hp) hinv
      · show (deviceSet (upsert st.activation
          ⟨keyHashOf license_key, pyStrip device_id, freshToken, fp, now, now + thirtyDays⟩) X).card ≤ _
        rw [deviceSet_upsert_other hX]
        exact hinv
    · intro hp
      rw [heq]
      exact distinctDevices_upsert_present hp

/-- Claim C4: with non-empty stripped inputs and a working usage log, Validate
raises no HTTP error in any of its three token cases: no matching
`(token, device)` row yields `{valid := false, reason := "not found"}`; a
matching row yields `valid = true` exactly when `now` is at most its
`expires_at`, and `{valid := false, reason := "expired"}` otherwise; the one
HTTP error is the 400 for a malformed request (an empty field). -/
theorem validate_negative_results (st : DB) (now : Nat) (token device_id : String)
    (hOk : st.usageOk = true) :
    ((pyStrip token = "" ∨ pyStrip device_id = "") →
      validate st now token device_id =
        (Except.error ⟨400, "Token e device_id são obrigatórios."⟩, st)) ∧
    (pyStrip token ≠ "" → pyStrip device_id ≠ "" →
      findActivation st.activation (pyStrip token) (pyStrip device_id) = none →
      (validate st now token device_id).1 = Except.ok ⟨false, "Token não encontrado."⟩) ∧
    (∀ row, pyStrip token ≠ "" → pyStrip device_id ≠ "" →
      findActivation st.activation (pyStrip token) (pyStrip device_id) = some row →
      (validate st now token device_id).1 =
        Except.ok ⟨decide (now ≤ row.expires_at),
          if now ≤ row.expires_at then "Token válido." else "Token expirado."⟩) := by
  refine ⟨?_, ?_, ?_⟩
  · intro h
    simp [validate, h]
  · intro ht hd hf
    simp [validate, ht, hd, hf]
  · intro row ht hd hf
    by_cases hnow : now ≤ row.expires_at <;>
      simp [validate, ht, hd, hf, hOk, hnow]

/-- Claim C5: with non-empty stripped inputs and a working usage log, Renew
fails with 404 and leaves the store unchanged when no activation row matches
`(token, device)`; when a row matches — its expiry unconstrained, so an
already-expired row included — it succeeds returning `now + 30 days`, the
matched row reappears with its `expires_at` set to `now + 30 days` in place,
and every row keeps its token value. -/
theorem renew_extends_expiry (st : DB) (now : Nat) (token device_id : String)
    (htok : pyStrip token ≠ "") (hdev : pyStrip device_id ≠ "") (hOk : st.usageOk = true) :
    (findActivation st.activation (pyStrip token) (pyStrip device_id) = none →
      renew st now token device_id = (Except.error ⟨404, "Ativação não encontrada."⟩, st)) ∧
    (∀ row, findActivation st.activation (pyStrip token) (pyStrip device_id) = some row →
      (renew st now token device_id).1 = Except.ok ⟨now + thirtyDays⟩ ∧
      { row with expires_at := now + thirtyDays } ∈ (renew st now token device_id).2.activation ∧
      (renew st now token device_id).2.activation.map Activation.token =
        st.activation.map Activation.token) := by
  constructor
  · intro hf
    simp [renew, htok, hdev, hf]
  · intro row hf
    have hf' : st.activation.find?
        (fun r => r.token == pyStrip token && r.device_id == pyStrip device_id) = some row := hf
    have hmem : row ∈ st.activation := List.mem_of_find?_eq_some hf'
    have hpred := List.find?_some hf'
    have htokeq : row.token = pyStrip token := by
      simp only [Bool.and_eq_true, beq_iff_eq] at hpred
      exact hpred.1
    have hren : renew st now token device_id =
        (Except.ok ⟨now + thirtyDays⟩,
         { st with
            activation := st.activation.map (fun r => if r.token == pyStrip token then { r with expires_at := now + thirtyDays } else r)
            usage := st.usage ++ [⟨now, row.license_key_hash, pyStrip device_id, "renew", renewMeta (now + thirtyDays)⟩] }) := by
      simp [renew, htok, hdev, hf, hOk]
    rw [hren]
    refine ⟨rfl, ?_, ?_⟩
    · have hmap := List.mem_map_of_mem
        (fun r : Activation => if r.token == pyStrip token then { r with expires_at := now + thirtyDays } else r) hmem
      simpa [htokeq] using hmap
    · rw [List.map_map]
      apply List.map_congr_left
      intro r _
      by_cases h : r.token == pyStrip token <;> simp [Function.comp, h]

set_option maxRecDepth 10000 in
/-- Claim C3 (the code lacks the claimed serialization): the admission probe
(lines 133-139) and the ledger write (lines 144-149) are separate statements
with no per-license lock, so the probe-probe-write-write interleaving of two
activations for fresh devices D1 and D2 on the demo license
(`max_devices = 1`, empty ledger) admits both: each probe rejects nothing,
and the committed ledger ends with 2 distinct devices, exceeding the ceiling
a serialized execution would enforce. -/
theorem activate_race_exceeds_ceiling :
    effectiveMax demoLicense.max_devices = 1 ∧
    slotRejected ([] : List Activation) 1 demoKeyHash "D1" = false ∧
    slotRejected ([] : List Activation) 1 demoKeyHash "D2" = false ∧
    distinctDevices (twoActivatesInterleaved [] 1 demoKeyHash "D1" "T1" "D2" "T2" 100)
      demoKeyHash = 2 := by
  decide

set_option maxRecDepth 10000 in
/-- Claim C6 is falsified on the code: the source normalizes a raw key only by
stripping whitespace — it never upper-cases nor restricts the character set —
so the raw keys "ab" and "AB", which share the spec's canonical form, receive
different key hashes. -/
theorem keyHash_not_spec_normalized :
    specNormalize "ab" = specNormalize "AB" ∧ keyHashOf "ab" ≠ keyHashOf "AB" := by
  decide

/-- Claim C6 as amended: key-hashing is deterministic, and any two raw keys
that agree after whitespace stripping — the only normalization the source
applies — receive the same key hash. -/
theorem keyHash_strip_congruence (k1 k2 : String) (h : pyStrip k1 = pyStrip k2) :
    keyHashOf k1 = keyHashOf k2 ∧ ∀ k : String, keyHashOf k = keyHashOf k :=
  ⟨by rw [keyHashOf, keyHashOf, h], fun _ => rfl⟩

set_option maxRecDepth 10000 in
theorem keyHash_strip_congruence_witness :
    pyStrip "  AB " = pyStrip "AB" ∧ keyHashOf "  AB " = keyHashOf "AB" :=
  ⟨by decide, (keyHash_strip_congruence "  AB " "AB" (by decide)).1⟩

set_option maxRecDepth 10000 in
/-- Claim C7 is falsified on the code: no usage insert is wrapped in
`try/except`, so with the usage log failing, `activate` on the demo license
commits the activation row yet returns a 500 — the append failure changes the
operation's returned outcome instead of being discarded at the call site. -/
theorem usage_failure_changes_outcome :
    (activate dbUsageBroken 100 "T1" "ABC-123" "D1" "fp").1 =
      Except.error ⟨500, "Internal Server Error"⟩ ∧
    pairPresent (activate dbUsageBroken 100 "T1" "ABC-123" "D1" "fp").2.activation
      demoKeyHash "D1" = true := by
  decide

/-- Claim C7 as amended: a failing usage-event append never rolls back the
already-committed primary effect — Activate's upsert and Renew's in-place
expiry update are in the post-state, and the usage log is untouched — but it
is not caught at the call site: each of Activate, Validate and Renew then
returns a 500 instead of its normal outcome. -/
theorem usage_failure_propagates (st : DB) (now : Nat) (hOk : st.usageOk = false) :
    (∀ freshToken license_key device_id fp tbl lic,
      pyStrip license_key ≠ "" → pyStrip device_id ≠ "" →
      st.license = some tbl → tbl.lookup (keyHashOf license_key) = some lic →
      lic.status.getD "" = "active" →
      slotRejected st.activation (effectiveMax lic.max_devices) (keyHashOf license_key)
        (pyStrip device_id) = false →
      activate st now freshToken license_key device_id fp =
        (Except.error ⟨500, "Internal Server Error"⟩,
         { st with activation := upsert st.activation ⟨keyHashOf license_key, pyStrip device_id, freshToken, fp, now, now + thirtyDays⟩ })) ∧
    (∀ token device_id row, pyStrip token ≠ "" → pyStrip device_id ≠ "" →
      findActivation st.activation (pyStrip token) (pyStrip device_id) = some row →
      validate st now token device_id =
        (Except.error ⟨500, "Internal Server Error"⟩, st)) ∧
    (∀ token device_id row, pyStrip token ≠ "" → pyStrip device_id ≠ "" →
      findActivation st.activation (pyStrip token) (pyStrip device_id) = some row →
      renew st now token device_id =
        (Except.error ⟨500, "Internal Server Error"⟩,
         { st with activation := st.activation.map (fun r => if r.token == pyStrip token then { r with expires_at := now + thirtyDays } else r) })) := by
  refine ⟨?_, ?_, ?_⟩
  · intro freshToken license_key device_id fp tbl lic hlk hdev hL hF hs hrej
    simp [activate, hlk, hdev, hL, hF, hs, hrej, hOk]
  · intro token device_id row ht hd hf
    simp [validate, ht, hd, hf, hOk]
  · intro token device_id row ht hd hf
    simp [renew, ht, hd, hf, hOk]

/-! ## Witnesses: the claim theorems applied at the spec §8 scenario -/

set_option maxRecDepth 10000 in
theorem activate_admission_control_witness :
    (activate dbD1 200 "T2" "ABC-123" "D2" "fp" =
      (Except.error ⟨403, "Licença já está em uso em outro computador."⟩, dbD1)) ∧
    (activate dbD1 200 "T2" "ABC-123" "D1" "fp" =
      (Except.ok ⟨"T2", 200 + thirtyDays, 1⟩,
       { dbD1 with
          activation := upsert dbD1.activation ⟨keyHashOf "ABC-123", pyStrip "D1", "T2", "fp", 200, 200 + thirtyDays⟩
          usage := dbD1.usage ++ [⟨200, keyHashOf "ABC-123", pyStrip "D1", "activate", "\x7b\x7d"⟩] })) := by
  constructor
  · exact (activate_admission_control dbD1 200 "T2" "ABC-123" "D2" "fp" demoTbl demoLicense
      (by decide) (by decide) rfl (by decide) rfl rfl).1 (by decide)
  · exact (activate_admission_control dbD1 200 "T2" "ABC-123" "D1" "fp" demoTbl demoLicense
      (by decide) (by decide) rfl (by decide) rfl rfl).2 (Or.inr (by decide))

set_option maxRecDepth 10000 in
theorem activate_preserves_device_ceiling_witness :
    distinctDevices (activate dbD1 200 "T2" "ABC-123" "D1" "fp").2.activation demoKeyHash ≤ 1 ∧
    distinctDevices (activate dbD1 200 "T2" "ABC-123" "D1" "fp").2.activation
        (keyHashOf "ABC-123") ≤
      distinctDevices dbD1.activation (keyHashOf "ABC-123") := by
  have h := activate_preserves_device_ceiling dbD1 200 "T2" "ABC-123" "D1" "fp" demoKeyHash
    demoTbl demoLicense rfl (by decide) (by decide)
  exact ⟨h.1, h.2 (by decide)⟩

set_option maxRecDepth 10000 in
theorem validate_negative_results_witness :
    validate dbD1 200 "  " "D1" =
      (Except.error ⟨400, "Token e device_id são obrigatórios."⟩, dbD1) ∧
    (validate dbD1 200 "TX" "D1").1 = Except.ok ⟨false, "Token não encontrado."⟩ ∧
    (validate dbD1 200 "T1" "D1").1 = Except.ok ⟨true, "Token válido."⟩ ∧
    (validate dbD1Expired 1000000 "T1" "D1").1 = Except.ok ⟨false, "Token expirado."⟩ := by
  have h1 := (validate_negative_results dbD1 200 "  " "D1" rfl).1 (by decide)
  have h2 := (validate_negative_results dbD1 200 "TX" "D1" rfl).2.1 (by decide) (by decide)
    (by decide)
  have h3 := (validate_negative_results dbD1 200 "T1" "D1" rfl).2.2 demoRowD1
    (by decide) (by decide) (by decide)
  have h4 := (validate_negative_results dbD1Expired 1000000 "T1" "D1" rfl).2.2 demoRowD1Expired
    (by decide) (by decide) (by decide)
  refine ⟨h1, h2, ?_, ?_⟩
  · rw [h3]; decide
  · rw [h4]; decide

set_option maxRecDepth 10000 in
theorem renew_extends_expiry_witness :
    renew dbD1 200 "TX" "D1" = (Except.error ⟨404, "Ativação não encontrada."⟩, dbD1) ∧
    (renew dbD1Expired 1000000 "T1" "D1").1 = Except.ok ⟨1000000 + thirtyDays⟩ ∧
    { demoRowD1Expired with expires_at := 1000000 + thirtyDays } ∈
      (renew dbD1Expired 1000000 "T1" "D1").2.activation ∧
    (renew dbD1Expired 1000000 "T1" "D1").2.activation.map Activation.token =
      dbD1Expired.activation.map Activation.token := by
  have h1 := (renew_extends_expiry dbD1 200 "TX" "D1" (by decide) (by decide) rfl).1 (by decide)
  have h2 := (renew_extends_expiry dbD1Expired 1000000 "T1" "D1" (by decide) (by decide) rfl).2
    demoRowD1Expired (by decide)
  exact ⟨h1, h2.1, h2.2.1, h2.2.2⟩

set_option maxRecDepth 10000 in
theorem activate_error_taxonomy_witness :
    activate dbEmpty 0 "T" "   " "D1" "fp" =
      (Except.error ⟨400, "Campos obrigatórios ausentes."⟩, dbEmpty) ∧
    activate dbNoTable 0 "T" "ABC-123" "D1" "fp" =
      (Except.error ⟨500, "Banco de licenças não inicializado."⟩, dbNoTable) ∧
    activate dbEmpty 0 "T" "OTHER-KEY" "D1" "fp" =
      (Except.error ⟨404, "Licença inválida."⟩, dbEmpty) ∧
    activate dbSuspended 0 "T" "ABC-123" "D1" "fp" =
      (Except.error ⟨403, "Licença inativa."⟩, dbSuspended) := by
  refine ⟨(activate_error_taxonomy dbEmpty 0 "T" "   " "D1" "fp").1 (by decide),
    (activate_error_taxonomy dbNoTable 0 "T" "ABC-123" "D1" "fp").2.1 (by decide) (by decide) rfl,
    (activate_error_taxonomy dbEmpty 0 "T" "OTHER-KEY" "D1" "fp").2.2.1 demoTbl
      (by decide) (by decide) rfl (by decide),
    (activate_error_taxonomy dbSuspended 0 "T" "ABC-123" "D1" "fp").2.2.2
      [(demoKeyHash, ⟨some "suspended", some 1⟩)] ⟨some "suspended", some 1⟩
      (by decide) (by decide) rfl (by decide) (by decide)⟩

set_option maxRecDepth 10000 in
theorem activate_counts_expired_rows_witness :
    activate dbD1Expired 1000000 "T9" "ABC-123" "D2" "fp" =
      (Except.error ⟨403, "Licença já está em uso em outro computador."⟩, dbD1Expired) := by
  exact activate_counts_expired_rows dbD1Expired 1000000 "T9" "ABC-123" "D2" "fp"
    demoTbl demoLicense (by decide) (by decide) rfl (by decide) rfl (by decide) (by decide)
    (by decide)

set_option maxRecDepth 10000 in
theorem usage_failure_propagates_witness :
    activate dbUsageBroken 100 "T1" "ABC-123" "D1" "fp" =
      (Except.error ⟨500, "Internal Server Error"⟩,
       { dbUsageBroken with
          activation := upsert dbUsageBroken.activation ⟨keyHashOf "ABC-123", pyStrip "D1", "T1", "fp", 100, 100 + thirtyDays⟩ }) ∧
    validate dbD1UsageBroken 200 "T1" "D1" =
      (Except.error ⟨500, "Internal Server Error"⟩, dbD1UsageBroken) ∧
    renew dbD1UsageBroken 200 "T1" "D1" =
      (Except.error ⟨500, "Internal Server Error"⟩,
       { dbD1UsageBroken with
          activation := dbD1UsageBroken.activation.map (fun r => if r.token == pyStrip "T1" then { r with expires_at := 200 + thirtyDays } else r) }) := by
  have hA := (usage_failure_propagates dbUsageBroken 100 rfl).1 "T1" "ABC-123" "D1" "fp"
    demoTbl demoLicense (by decide) (by decide) rfl (by decide) rfl (by decide)
  have hV := (usage_failure_propagates dbD1UsageBroken 200 rfl).2.1 "T1" "D1" demoRowD1
    (by decide) (by decide) (by decide)
  have hR := (usage_failure_propagates dbD1UsageBroken 200 rfl).2.2 "T1" "D1" demoRowD1
    (by decide) (by decide) (by decide)
  exact ⟨hA, hV, hR⟩

end PyratasApi
